import Mathlib

/-!
Verification of the HWMonitor firmware core (`src/firmware/src/main.cpp`):
the serial line decoder, the telemetry JSON parser, the freshness tracking
and the gaming/idle/config display-mode arbiter of `loop()`, together with
the NTP clock cache and the weather cache.

The embedding follows the source directly.  Machine time (`millis()`) is a
`Nat`; C strings are `List Char`; the ArduinoJson deserializer is an
abstract parameter `deser : List Char → Option JsonDoc` (a `JsonDoc` holds
each recognized key as `Option`, `none` meaning absent or of the wrong
type, mirroring the `doc[key] | default` fallback of ArduinoJson).
Network interactions (WiFi status, NTP, geolocation, weather HTTP fetch)
are tick inputs: `none`/`false` means the call failed.
-/

namespace HWMonitor

/-- Timeout for serial telemetry freshness (`SERIAL_TIMEOUT_MS`, line 82). -/
def SERIAL_TIMEOUT_MS : Nat := 5000

/-- Gaming-mode cooldown (`GAMING_COOLDOWN_MS`, line 94). -/
def GAMING_COOLDOWN_MS : Nat := 3000

/-- NTP refresh interval (`NTP_UPDATE_INTERVAL`, line 103). -/
def NTP_UPDATE_INTERVAL : Nat := 60000

/-- Weather refresh interval (`WEATHER_INTERVAL`, line 114). -/
def WEATHER_INTERVAL : Nat := 900000

/-- Arduino `constrain(amt, low, high)` macro:
`((amt)<(low)?(low):((amt)>(high)?(high):(amt)))`. -/
def constrain (amt low high : Int) : Int :=
  if amt < low then low else if high < amt then high else amt

/-- The `HWData` struct (lines 65-76).  `hora` is a 6-byte C buffer
(at most 5 characters), `data` a 12-byte buffer (at most 11 characters);
both are modelled as the character list they hold. -/
structure HWData where
  cpu : Int
  gpu : Int
  ram : Int
  cpu_temp : Int
  gpu_temp : Int
  fps : Int
  cpu_clk : Int
  gpu_clk : Int
  hora : List Char
  data : List Char
deriving Repr, DecidableEq

/-- Default member initializers of `HWData` (global `hw`): all metrics 0,
`hora = "--:--"`, `data = ""`. -/
def HWData.init : HWData :=
  { cpu := 0, gpu := 0, ram := 0, cpu_temp := 0, gpu_temp := 0, fps := 0,
    cpu_clk := 0, gpu_clk := 0,
    hora := ['-', '-', ':', '-', '-'], data := [] }

/-- Result of `deserializeJson` on one line, as consumed by `parseJson`
(lines 330-354): each recognized key is `some v` when present with the
right type, else `none` (ArduinoJson then substitutes the `| default`). -/
structure JsonDoc where
  cpu : Option Int
  gpu : Option Int
  ram : Option Int
  cpu_temp : Option Int
  gpu_temp : Option Int
  fps : Option Int
  cpu_clk : Option Int
  gpu_clk : Option Int
  time : Option (List Char)
  date : Option (List Char)
deriving Repr, DecidableEq

/-- The mutable globals of the firmware that the core logic touches
(lines 78-114).  `weatherLat`/`weatherLon` are only ever compared to zero
by the core, so the float coordinates are embedded as integers. -/
structure DeviceState where
  hw : HWData
  lastDataTime : Nat
  hasSerialData : Bool
  serialBuffer : List Char
  inGamingMode : Bool
  lastFpsTime : Nat
  ntpSynced : Bool
  lastNtpUpdate : Nat
  wifiConnected : Bool
  weatherLat : Int
  weatherLon : Int
  weatherTemp : Int
  weatherCode : Int
  weatherValid : Bool
  lastWeatherUpdate : Nat
deriving Repr, DecidableEq

/-- Initial values of the globals at the top of the file, before `setup()`
runs (lines 78-114). -/
def initGlobals : DeviceState :=
  { hw := HWData.init, lastDataTime := 0, hasSerialData := false,
    serialBuffer := [], inGamingMode := false, lastFpsTime := 0,
    ntpSynced := false, lastNtpUpdate := 0, wifiConnected := false,
    weatherLat := 0, weatherLon := 0, weatherTemp := 0, weatherCode := -1,
    weatherValid := false, lastWeatherUpdate := 0 }

/-- What the display shows when a `loop()` iteration finishes: the config
(provisioning-portal) screen, the gaming screen, or the idle screen
(boot screens are drawn only transiently inside a tick). -/
inductive Screen where
  | config : Screen
  | gaming : Screen
  | idle : Screen
deriving Repr, DecidableEq

/-- Environment inputs consumed by one `loop()` iteration: the current
`millis()`, the WiFi link status, the pending serial bytes, and the
results of the fallible network calls (`none`/`false` = failure). -/
structure TickInput where
  now : Nat
  wifiUp : Bool
  serialBytes : List Char
  ntpSyncOk : Bool
  ntpTime : Option (List Char × List Char)
  locResp : Option (Int × Int)
  weatherResp : Option (Int × Int)

/-- Environment inputs consumed by `setup()` (lines 119-151). -/
structure BootInput where
  bootNow : Nat
  wifiOk : Bool
  ntpSyncOk : Bool
  locResp : Option (Int × Int)
  weatherResp : Option (Int × Int)

/-- `syncNTP()` (lines 175-182): on success sets `ntpSynced`; on failure
leaves it unchanged. -/
def syncNTP (ok : Bool) (st : DeviceState) : DeviceState :=
  if ok = true then { st with ntpSynced := true } else st

/-- `updateNtpTime()` (lines 184-191): when `getLocalTime` succeeds,
`strftime` rewrites `hw.hora` and `hw.data`; the `sizeof` argument bounds
the output to 5 resp. 11 characters (the patterns `%H:%M` and `%d %b`
always fit), modelled as truncation.  On failure nothing is written. -/
def updateNtpTime (t : Option (List Char × List Char)) (hw : HWData) : HWData :=
  match t with
  | none => hw
  | some (h, d) => { hw with hora := h.take 5, data := d.take 11 }

/-- `fetchLocation()` (lines 196-210): on HTTP 200 with well-formed JSON
stores the coordinates, otherwise leaves them unchanged. -/
def fetchLocation (resp : Option (Int × Int)) (st : DeviceState) : DeviceState :=
  match resp with
  | none => st
  | some (la, lo) => { st with weatherLat := la, weatherLon := lo }

/-- `fetchWeather()` (lines 212-236): returns immediately when no
coordinates are known; on HTTP 200 with well-formed JSON stores
temperature and code, marks the snapshot valid and stamps it; on any
failure nothing is written. -/
def fetchWeather (now : Nat) (resp : Option (Int × Int)) (st : DeviceState) :
    DeviceState :=
  if st.weatherLat = 0 ∧ st.weatherLon = 0 then st
  else
    match resp with
    | none => st
    | some (t, c) =>
        { st with weatherTemp := t, weatherCode := c, weatherValid := true,
                  lastWeatherUpdate := now }

/-- Field updates of a successful `parseJson` (lines 335-354): every
numeric key is read with default 0 and passed through `constrain`; the
`time`/`date` strings are copied (truncated to the buffer capacity minus
one by `strncpy` plus the explicit terminator) only when present and
non-empty. -/
def applyDoc (doc : JsonDoc) (hw : HWData) : HWData :=
  let t := doc.time.getD []
  let d := doc.date.getD []
  { cpu      := constrain (doc.cpu.getD 0) 0 100,
    gpu      := constrain (doc.gpu.getD 0) 0 100,
    ram      := constrain (doc.ram.getD 0) 0 100,
    cpu_temp := constrain (doc.cpu_temp.getD 0) 0 120,
    gpu_temp := constrain (doc.gpu_temp.getD 0) 0 120,
    fps      := constrain (doc.fps.getD 0) 0 9999,
    cpu_clk  := constrain (doc.cpu_clk.getD 0) 0 9999,
    gpu_clk  := constrain (doc.gpu_clk.getD 0) 0 9999,
    hora     := if 0 < t.length then t.take 5 else hw.hora,
    data     := if 0 < d.length then d.take 11 else hw.data }

/-- `parseJson()` (lines 330-358): on a deserialization error the line is
discarded and nothing changes; on success the fields are applied, the
telemetry timestamp is refreshed and `hasSerialData` is set. -/
def parseJson (deser : List Char → Option JsonDoc) (now : Nat)
    (st : DeviceState) (json : List Char) : DeviceState :=
  match deser json with
  | none => st
  | some doc =>
      { st with hw := applyDoc doc st.hw, lastDataTime := now,
                hasSerialData := true }

/-- One step of the line decoder inside `readSerial()` (lines 314-326):
feed one byte, returning the new buffer and the emitted complete line, if
any.  On a terminator a non-empty buffer is emitted and cleared; a
non-terminator byte is appended, and if the buffer then exceeds 512 bytes
it is silently discarded. -/
def feedByte (buf : List Char) (c : Char) : List Char × Option (List Char) :=
  if c = '\n' ∨ c = '\r' then
    if buf ≠ [] then ([], some buf) else (buf, none)
  else
    let b := buf ++ [c]
    if 512 < b.length then ([], none) else (b, none)

/-- The line decoder run over a byte sequence, collecting the emitted
lines (pure view of `readSerial()` without the parser). -/
def feedBytes (buf : List Char) : List Char → List Char × List (List Char)
  | [] => (buf, [])
  | c :: cs =>
      match feedByte buf c with
      | (b, none) => feedBytes b cs
      | (b, some line) =>
          let r := feedBytes b cs
          (r.1, line :: r.2)

/-- `readSerial()` (lines 313-328): drain the pending bytes through the
line decoder, calling `parseJson` on each emitted line. -/
def readSerial (deser : List Char → Option JsonDoc) (now : Nat)
    (st : DeviceState) : List Char → DeviceState
  | [] => st
  | c :: cs =>
      match feedByte st.serialBuffer c with
      | (b, none) =>
          readSerial deser now { st with serialBuffer := b } cs
      | (b, some line) =>
          readSerial deser now
            { parseJson deser now st line with serialBuffer := b } cs

/-- `serialActive` as computed in `loop()` (line 280) and
`drawIdleScreen()` (line 471): telemetry is fresh only when the last data
is within the timeout AND at least one line has ever parsed. -/
def serialFresh (now : Nat) (st : DeviceState) : Bool :=
  (decide (now - st.lastDataTime < SERIAL_TIMEOUT_MS)) && st.hasSerialData

/-- The gaming/idle auto-switch of `loop()` (lines 292-298): a tick with
`fps > 0` and fresh telemetry enters Gaming and stamps `lastFpsTime`;
otherwise Gaming is left only when strictly more than
`GAMING_COOLDOWN_MS` have passed since that stamp.  Returns the new
`(inGamingMode, lastFpsTime)`. -/
def gamingArbiter (now : Nat) (fps : Int) (active : Bool) (inGaming : Bool)
    (lastFps : Nat) : Bool × Nat :=
  if 0 < fps ∧ active = true then (true, now)
  else if inGaming = true ∧ GAMING_COOLDOWN_MS < now - lastFps then
    (false, lastFps)
  else (inGaming, lastFps)

/-- The WiFi-just-reconnected branch of `loop()` (lines 243-253), entered
when `wifiConnected` was false but the link is now up: mark connected,
then `syncNTP`, `fetchLocation`, `fetchWeather`. -/
def connectPhase (inp : TickInput) (st : DeviceState) : DeviceState :=
  if st.wifiConnected = false then
    fetchWeather inp.now inp.weatherResp
      (fetchLocation inp.locResp
        (syncNTP inp.ntpSyncOk { st with wifiConnected := true }))
  else st

/-- The link-drop check of `loop()` (lines 267-270). -/
def reconnectPhase (inp : TickInput) (st : DeviceState) : DeviceState :=
  if inp.wifiUp = false then { st with wifiConnected := false } else st

/-- The periodic weather refresh of `loop()` (lines 273-275). -/
def weatherPhase (inp : TickInput) (st : DeviceState) : DeviceState :=
  if st.wifiConnected = true ∧ WEATHER_INTERVAL < inp.now - st.lastWeatherUpdate
  then fetchWeather inp.now inp.weatherResp st
  else st

/-- The NTP clock refresh of `loop()` (lines 283-290), taken only when the
serial link is not active and NTP has synced; `updateNtpTime` runs every
such tick (and the 60 s branch additionally stamps `lastNtpUpdate`). -/
def ntpPhase (inp : TickInput) (active : Bool) (st : DeviceState) :
    DeviceState :=
  if active = false ∧ st.ntpSynced = true then
    let stA :=
      if NTP_UPDATE_INTERVAL < inp.now - st.lastNtpUpdate then
        { st with lastNtpUpdate := inp.now,
                  hw := updateNtpTime inp.ntpTime st.hw }
      else st
    { stA with hw := updateNtpTime inp.ntpTime stA.hw }
  else st

/-- One full iteration of `loop()` (lines 241-308).  While the portal is
active and the link is still down, the iteration redraws the config
screen and returns (line 262) without touching anything else — in
particular without running `readSerial`.  Otherwise: connect handling,
link-drop check, weather refresh, `readSerial`, NTP refresh, the
gaming/idle arbiter, and finally the gaming or idle screen (the firmware
has no offline screen, line 300). -/
def loopTick (deser : List Char → Option JsonDoc) (inp : TickInput)
    (st0 : DeviceState) : DeviceState × Screen :=
  if st0.wifiConnected = false ∧ inp.wifiUp = false then (st0, Screen.config)
  else
    let st4 := readSerial deser inp.now
      (weatherPhase inp (reconnectPhase inp (connectPhase inp st0)))
      inp.serialBytes
    let sa := serialFresh inp.now st4
    let st5 := ntpPhase inp sa st4
    let g := gamingArbiter inp.now st5.hw.fps sa st5.inGamingMode
      st5.lastFpsTime
    ({ st5 with inGamingMode := g.1, lastFpsTime := g.2 },
     if g.1 = true then Screen.gaming else Screen.idle)

/-- `setup()` (lines 119-151): globals at their initializers, WiFi
provisioning attempt, on success NTP sync + location + weather, and
finally `lastDataTime = millis()` (line 150). -/
def setupState (b : BootInput) : DeviceState :=
  let st0 := { initGlobals with wifiConnected := b.wifiOk }
  let st1 :=
    if b.wifiOk = true then
      fetchWeather b.bootNow b.weatherResp
        (fetchLocation b.locResp (syncNTP b.ntpSyncOk st0))
    else st0
  { st1 with lastDataTime := b.bootNow }

/-- Iterated `loop()` over a sequence of tick inputs. -/
def runTicks (deser : List Char → Option JsonDoc) :
    DeviceState → List TickInput → DeviceState
  | st, [] => st
  | st, i :: rest => runTicks deser (loopTick deser i st).1 rest

/-- The weather-rendering guard of `drawIdleScreen()` (line 456): the
cached snapshot is drawn exactly when `weatherValid` holds. -/
def idleShowsWeather (st : DeviceState) : Bool := st.weatherValid

/-- Capacity invariant of the two C string buffers of `HWData`: `hora`
(6 bytes) holds at most 5 characters plus the terminator, `data`
(12 bytes) at most 11. -/
def hwStringsOk (hw : HWData) : Prop :=
  hw.hora.length ≤ 5 ∧ hw.data.length ≤ 11

/-! ### Concrete fixtures used by witnesses and counterexamples -/

/-- A deserializer that fails on every line. -/
def deserNone : List Char → Option JsonDoc := fun _ => none

/-- A record carrying out-of-range numbers, an 8-character time string and
an empty date string. -/
def docBig : JsonDoc :=
  { cpu := some 150, gpu := some (-7), ram := none, cpu_temp := some 500,
    gpu_temp := some 80, fps := some 10000, cpu_clk := some (-1),
    gpu_clk := some 4500,
    time := some ['1', '2', ':', '3', '4', ':', '5', '6'],
    date := some [] }

/-- A deserializer that yields `docBig` on every line. -/
def deserBig : List Char → Option JsonDoc := fun _ => some docBig

/-- A tick with no serial bytes and every network interaction failing. -/
def inpQuiet (n : Nat) : TickInput :=
  { now := n, wifiUp := true, serialBytes := [], ntpSyncOk := false,
    ntpTime := none, locResp := none, weatherResp := none }

/-- A state in Gaming mode whose last `fps > 0` tick was at time 0, with
fresh telemetry whose cached `fps` has dropped to 0. -/
def stGaming : DeviceState :=
  { initGlobals with
    wifiConnected := true, hasSerialData := true,
    lastDataTime := 3000, inGamingMode := true, lastFpsTime := 0 }

/-- A state whose telemetry was last seen at time 1000 and that has no
network time (`ntpSynced = false`). -/
def stStale : DeviceState :=
  { initGlobals with
    wifiConnected := true, hasSerialData := true,
    lastDataTime := 1000 }

/-- A state whose last parsed line (at time 10000) carried `fps = 60`, so
Gaming stayed latched and `lastFpsTime` was restamped on every tick while
telemetry was fresh, last at 14980. -/
def stLatched : DeviceState :=
  { initGlobals with
    wifiConnected := true, hasSerialData := true,
    lastDataTime := 10000, inGamingMode := true, lastFpsTime := 14980,
    hw := { HWData.init with fps := 60 } }

/-- A portal tick: the WiFi link is still down while a complete serial
line is pending. -/
def inpPortal : TickInput :=
  { now := 0, wifiUp := false, serialBytes := ['a', '\n'], ntpSyncOk := false,
    ntpTime := none, locResp := none, weatherResp := none }

/-- A state holding a valid weather snapshot. -/
def stWeather : DeviceState :=
  { initGlobals with
    weatherLat := 1, weatherTemp := 21, weatherCode := 3,
    weatherValid := true, lastWeatherUpdate := 5 }

/-- A boot where WiFi and NTP succeed but location/weather fail. -/
def bootQuiet : BootInput :=
  { bootNow := 100, wifiOk := true, ntpSyncOk := true, locResp := none,
    weatherResp := none }

/-! ### Helper lemmas -/

theorem constrain_eq_max_min (x lo hi : Int) (h : lo ≤ hi) :
    constrain x lo hi = max lo (min hi x) := by
  unfold constrain
  split
  · omega
  · split <;> omega

/-- A failing deserializer leaves `parseJson` as the identity. -/
theorem parseJson_none (deser : List Char → Option JsonDoc) (now : Nat)
    (st : DeviceState) (json : List Char) (h : deser json = none) :
    parseJson deser now st json = st := by
  simp [parseJson, h]

theorem constrain_0_100 (x : Int) : constrain x 0 100 = max 0 (min 100 x) :=
  constrain_eq_max_min x 0 100 (by decide)

theorem constrain_0_120 (x : Int) : constrain x 0 120 = max 0 (min 120 x) :=
  constrain_eq_max_min x 0 120 (by decide)

theorem constrain_0_9999 (x : Int) : constrain x 0 9999 = max 0 (min 9999 x) :=
  constrain_eq_max_min x 0 9999 (by decide)

/-- Accumulation lemma for the line decoder: from any buffer, feeding
terminator-free bytes that keep the total within 512 and then a newline
emits exactly the concatenation. -/
theorem feedBytes_accum (line : List Char) : ∀ buf : List Char,
    buf ++ line ≠ [] → (buf ++ line).length ≤ 512 →
    (∀ c ∈ line, ¬(c = '\n' ∨ c = '\r')) →
    feedBytes buf (line ++ ['\n']) = ([], [buf ++ line]) := by
  induction line with
  | nil =>
      intro buf h1 h2 _
      simp only [List.append_nil] at h1
      simp [feedBytes, feedByte, h1]
  | cons c cs ih =>
      intro buf h1 h2 h3
      have hc : ¬(c = '\n' ∨ c = '\r') := h3 c (by simp)
      have h2a : buf.length + (cs.length + 1) ≤ 512 := by
        simp only [List.length_append, List.length_cons] at h2
        omega
      have hlen : ¬(512 < (buf ++ [c]).length) := by
        simp only [List.length_append, List.length_cons, List.length_nil]
        omega
      have step : feedByte buf c = (buf ++ [c], none) := by
        simp [feedByte, hc, hlen]
        omega
      have hne : (buf ++ [c]) ++ cs ≠ [] := by simp
      have hle : ((buf ++ [c]) ++ cs).length ≤ 512 := by
        simp only [List.length_append, List.length_cons, List.length_nil]
        omega
      have hrest : ∀ x ∈ cs, ¬(x = '\n' ∨ x = '\r') := by
        intro x hx; exact h3 x (by simp [hx])
      have hrec := ih (buf ++ [c]) hne hle hrest
      simp only [List.cons_append, feedBytes, step, List.append_eq]
      rw [hrec]
      simp

theorem updateNtpTime_fps (t : Option (List Char × List Char)) (hw : HWData) :
    (updateNtpTime t hw).fps = hw.fps := by
  rcases t with _ | ⟨h, d⟩ <;> rfl

theorem updateNtpTime_strings (t : Option (List Char × List Char))
    (hw : HWData) (h : hwStringsOk hw) : hwStringsOk (updateNtpTime t hw) := by
  rcases t with _ | ⟨a, d⟩
  · exact h
  · constructor <;> simp [updateNtpTime, List.length_take]

theorem applyDoc_strings (doc : JsonDoc) (hw : HWData) (h : hwStringsOk hw) :
    hwStringsOk (applyDoc doc hw) := by
  obtain ⟨h1, h2⟩ := h
  constructor <;> simp [applyDoc] <;> split <;>
    simp [List.length_take, h1, h2]

theorem syncNTP_pres (ok : Bool) (st : DeviceState) :
    (syncNTP ok st).hw = st.hw ∧
    (syncNTP ok st).lastDataTime = st.lastDataTime ∧
    (syncNTP ok st).hasSerialData = st.hasSerialData ∧
    (syncNTP ok st).inGamingMode = st.inGamingMode ∧
    (syncNTP ok st).lastFpsTime = st.lastFpsTime ∧
    (syncNTP ok st).weatherValid = st.weatherValid := by
  unfold syncNTP; split <;> simp

theorem fetchLocation_pres (r : Option (Int × Int)) (st : DeviceState) :
    (fetchLocation r st).hw = st.hw ∧
    (fetchLocation r st).lastDataTime = st.lastDataTime ∧
    (fetchLocation r st).hasSerialData = st.hasSerialData ∧
    (fetchLocation r st).inGamingMode = st.inGamingMode ∧
    (fetchLocation r st).lastFpsTime = st.lastFpsTime ∧
    (fetchLocation r st).weatherValid = st.weatherValid := by
  rcases r with _ | ⟨a, b⟩ <;> simp [fetchLocation]

theorem fetchWeather_pres (now : Nat) (r : Option (Int × Int))
    (st : DeviceState) :
    (fetchWeather now r st).hw = st.hw ∧
    (fetchWeather now r st).lastDataTime = st.lastDataTime ∧
    (fetchWeather now r st).hasSerialData = st.hasSerialData ∧
    (fetchWeather now r st).inGamingMode = st.inGamingMode ∧
    (fetchWeather now r st).lastFpsTime = st.lastFpsTime ∧
    (fetchWeather now r st).ntpSynced = st.ntpSynced := by
  unfold fetchWeather
  split
  · simp
  · rcases r with _ | ⟨a, b⟩ <;> simp

theorem fetchWeather_valid_mono (now : Nat) (r : Option (Int × Int))
    (st : DeviceState) (h : st.weatherValid = true) :
    (fetchWeather now r st).weatherValid = true := by
  unfold fetchWeather
  split
  · exact h
  · rcases r with _ | ⟨a, b⟩ <;> simp [h]

theorem connectPhase_eq (inp : TickInput) (st : DeviceState)
    (h : st.wifiConnected = true) : connectPhase inp st = st := by
  simp [connectPhase, h]

theorem connectPhase_pres (inp : TickInput) (st : DeviceState) :
    (connectPhase inp st).hw = st.hw ∧
    (connectPhase inp st).lastDataTime = st.lastDataTime ∧
    (connectPhase inp st).hasSerialData = st.hasSerialData ∧
    (connectPhase inp st).inGamingMode = st.inGamingMode ∧
    (connectPhase inp st).lastFpsTime = st.lastFpsTime := by
  unfold connectPhase
  split
  · obtain ⟨w1, w2, w3, w4, w5, -⟩ := fetchWeather_pres inp.now inp.weatherResp
      (fetchLocation inp.locResp
        (syncNTP inp.ntpSyncOk { st with wifiConnected := true }))
    obtain ⟨l1, l2, l3, l4, l5, -⟩ := fetchLocation_pres inp.locResp
      (syncNTP inp.ntpSyncOk { st with wifiConnected := true })
    obtain ⟨s1, s2, s3, s4, s5, -⟩ := syncNTP_pres inp.ntpSyncOk
      { st with wifiConnected := true }
    exact ⟨w1.trans (l1.trans s1), w2.trans (l2.trans s2),
      w3.trans (l3.trans s3), w4.trans (l4.trans s4), w5.trans (l5.trans s5)⟩
  · simp

theorem connectPhase_valid_mono (inp : TickInput) (st : DeviceState)
    (h : st.weatherValid = true) : (connectPhase inp st).weatherValid = true := by
  unfold connectPhase
  split
  · apply fetchWeather_valid_mono
    obtain ⟨-, -, -, -, -, l6⟩ := fetchLocation_pres inp.locResp
      (syncNTP inp.ntpSyncOk { st with wifiConnected := true })
    obtain ⟨-, -, -, -, -, s6⟩ := syncNTP_pres inp.ntpSyncOk
      { st with wifiConnected := true }
    rw [l6, s6]
    exact h
  · exact h

theorem reconnectPhase_pres (inp : TickInput) (st : DeviceState) :
    (reconnectPhase inp st).hw = st.hw ∧
    (reconnectPhase inp st).lastDataTime = st.lastDataTime ∧
    (reconnectPhase inp st).hasSerialData = st.hasSerialData ∧
    (reconnectPhase inp st).inGamingMode = st.inGamingMode ∧
    (reconnectPhase inp st).lastFpsTime = st.lastFpsTime ∧
    (reconnectPhase inp st).weatherValid = st.weatherValid := by
  unfold reconnectPhase; split <;> simp

theorem weatherPhase_pres (inp : TickInput) (st : DeviceState) :
    (weatherPhase inp st).hw = st.hw ∧
    (weatherPhase inp st).lastDataTime = st.lastDataTime ∧
    (weatherPhase inp st).hasSerialData = st.hasSerialData ∧
    (weatherPhase inp st).inGamingMode = st.inGamingMode ∧
    (weatherPhase inp st).lastFpsTime = st.lastFpsTime := by
  unfold weatherPhase
  split
  · obtain ⟨w1, w2, w3, w4, w5, -⟩ := fetchWeather_pres inp.now
      inp.weatherResp st
    exact ⟨w1, w2, w3, w4, w5⟩
  · simp

theorem weatherPhase_valid_mono (inp : TickInput) (st : DeviceState)
    (h : st.weatherValid = true) : (weatherPhase inp st).weatherValid = true := by
  unfold weatherPhase
  split
  · exact fetchWeather_valid_mono inp.now inp.weatherResp st h
  · exact h

theorem ntpPhase_pres (inp : TickInput) (a : Bool) (st : DeviceState) :
    (ntpPhase inp a st).hw.fps = st.hw.fps ∧
    (ntpPhase inp a st).lastDataTime = st.lastDataTime ∧
    (ntpPhase inp a st).hasSerialData = st.hasSerialData ∧
    (ntpPhase inp a st).inGamingMode = st.inGamingMode ∧
    (ntpPhase inp a st).lastFpsTime = st.lastFpsTime ∧
    (ntpPhase inp a st).weatherValid = st.weatherValid := by
  unfold ntpPhase
  split
  · split <;> simp [updateNtpTime_fps]
  · simp

theorem ntpPhase_strings (inp : TickInput) (a : Bool) (st : DeviceState)
    (h : hwStringsOk st.hw) : hwStringsOk (ntpPhase inp a st).hw := by
  unfold ntpPhase
  split
  · split
    · exact updateNtpTime_strings _ _ (updateNtpTime_strings _ _ h)
    · exact updateNtpTime_strings _ _ h
  · exact h

theorem parseJson_pres (deser : List Char → Option JsonDoc) (now : Nat)
    (st : DeviceState) (line : List Char) :
    (parseJson deser now st line).inGamingMode = st.inGamingMode ∧
    (parseJson deser now st line).lastFpsTime = st.lastFpsTime ∧
    (parseJson deser now st line).weatherValid = st.weatherValid ∧
    (parseJson deser now st line).ntpSynced = st.ntpSynced := by
  unfold parseJson
  rcases hd : deser line with _ | doc <;> simp

theorem parseJson_strings (deser : List Char → Option JsonDoc) (now : Nat)
    (st : DeviceState) (line : List Char) (h : hwStringsOk st.hw) :
    hwStringsOk (parseJson deser now st line).hw := by
  unfold parseJson
  rcases hd : deser line with _ | doc
  · exact h
  · exact applyDoc_strings doc st.hw h

theorem readSerial_pres (deser : List Char → Option JsonDoc) (now : Nat)
    (bytes : List Char) : ∀ st : DeviceState,
    (readSerial deser now st bytes).inGamingMode = st.inGamingMode ∧
    (readSerial deser now st bytes).lastFpsTime = st.lastFpsTime ∧
    (readSerial deser now st bytes).weatherValid = st.weatherValid ∧
    (readSerial deser now st bytes).ntpSynced = st.ntpSynced := by
  induction bytes with
  | nil => intro st; exact ⟨rfl, rfl, rfl, rfl⟩
  | cons c cs ih =>
      intro st
      simp only [readSerial]
      rcases hf : feedByte st.serialBuffer c with ⟨b, o⟩
      rcases o with _ | line
      · exact ih { st with serialBuffer := b }
      · have hr := ih { parseJson deser now st line with serialBuffer := b }
        have hp := parseJson_pres deser now st line
        exact ⟨hr.1.trans hp.1, hr.2.1.trans hp.2.1,
          hr.2.2.1.trans hp.2.2.1, hr.2.2.2.trans hp.2.2.2⟩

theorem readSerial_strings (deser : List Char → Option JsonDoc) (now : Nat)
    (bytes : List Char) : ∀ st : DeviceState, hwStringsOk st.hw →
    hwStringsOk (readSerial deser now st bytes).hw := by
  induction bytes with
  | nil => intro st h; exact h
  | cons c cs ih =>
      intro st h
      simp only [readSerial]
      rcases hf : feedByte st.serialBuffer c with ⟨b, o⟩
      rcases o with _ | line
      · exact ih { st with serialBuffer := b } h
      · exact ih { parseJson deser now st line with serialBuffer := b }
          (parseJson_strings deser now st line h)

theorem readSerial_noparse (deser : List Char → Option JsonDoc)
    (H : ∀ l, deser l = none) (now : Nat) (bytes : List Char) :
    ∀ st : DeviceState,
    (readSerial deser now st bytes).hasSerialData = st.hasSerialData := by
  induction bytes with
  | nil => intro st; rfl
  | cons c cs ih =>
      intro st
      simp only [readSerial]
      rcases hf : feedByte st.serialBuffer c with ⟨b, o⟩
      rcases o with _ | line
      · exact ih { st with serialBuffer := b }
      · have := ih { parseJson deser now st line with serialBuffer := b }
        rw [this]
        show (parseJson deser now st line).hasSerialData = st.hasSerialData
        rw [parseJson_none deser now st line (H line)]

theorem readSerial_nil (deser : List Char → Option JsonDoc) (now : Nat)
    (st : DeviceState) : readSerial deser now st [] = st := rfl

theorem gamingArbiter_inactive (now : Nat) (fps : Int) (lastFps : Nat) :
    gamingArbiter now fps false false lastFps = (false, lastFps) := by
  simp [gamingArbiter]

/-- With WiFi connected and no pending serial bytes, the screen chosen by
a tick is decided by the gaming arbiter on the pre-tick freshness and
cached `fps`. -/
theorem loopTick_snd (deser : List Char → Option JsonDoc) (inp : TickInput)
    (st : DeviceState) (h1 : st.wifiConnected = true)
    (hb : inp.serialBytes = []) :
    (loopTick deser inp st).2 =
      (if (gamingArbiter inp.now st.hw.fps (serialFresh inp.now st)
            st.inGamingMode st.lastFpsTime).1 = true
       then Screen.gaming else Screen.idle) := by
  obtain ⟨r1, r2, r3, r4, r5, -⟩ := reconnectPhase_pres inp st
  obtain ⟨w1, w2, w3, w4, w5⟩ := weatherPhase_pres inp (reconnectPhase inp st)
  obtain ⟨n1, n2, n3, n4, n5, -⟩ := ntpPhase_pres inp
    (serialFresh inp.now st) (weatherPhase inp (reconnectPhase inp st))
  simp only [loopTick, h1, hb, connectPhase_eq inp st h1, readSerial_nil]
  have hfresh : serialFresh inp.now (weatherPhase inp (reconnectPhase inp st))
      = serialFresh inp.now st := by
    simp [serialFresh, w2.trans r2, w3.trans r3]
  rw [if_neg (by simp [h1])]
  simp only [hfresh, n1, n4, n5, w1, w4, w5, r1, r4, r5]

/-- With WiFi connected and no pending serial bytes, the gaming flag after
a tick is the arbiter's verdict on the pre-tick state. -/
theorem loopTick_fst_gaming (deser : List Char → Option JsonDoc)
    (inp : TickInput) (st : DeviceState) (h1 : st.wifiConnected = true)
    (hb : inp.serialBytes = []) :
    (loopTick deser inp st).1.inGamingMode =
      (gamingArbiter inp.now st.hw.fps (serialFresh inp.now st)
        st.inGamingMode st.lastFpsTime).1 := by
  obtain ⟨r1, r2, r3, r4, r5, -⟩ := reconnectPhase_pres inp st
  obtain ⟨w1, w2, w3, w4, w5⟩ := weatherPhase_pres inp (reconnectPhase inp st)
  obtain ⟨n1, n2, n3, n4, n5, -⟩ := ntpPhase_pres inp
    (serialFresh inp.now st) (weatherPhase inp (reconnectPhase inp st))
  simp only [loopTick, h1, hb, connectPhase_eq inp st h1, readSerial_nil]
  have hfresh : serialFresh inp.now (weatherPhase inp (reconnectPhase inp st))
      = serialFresh inp.now st := by
    simp [serialFresh, w2.trans r2, w3.trans r3]
  rw [if_neg (by simp [h1])]
  simp only [hfresh, n1, n4, n5, w1, w4, w5, r1, r4, r5]

/-- One tick keeps a valid weather snapshot valid. -/
theorem loopTick_valid_mono (deser : List Char → Option JsonDoc)
    (inp : TickInput) (st : DeviceState) (h : st.weatherValid = true) :
    (loopTick deser inp st).1.weatherValid = true := by
  unfold loopTick
  split
  · exact h
  · have h2 := connectPhase_valid_mono inp st h
    have h3 : (reconnectPhase inp (connectPhase inp st)).weatherValid = true :=
      ((reconnectPhase_pres inp (connectPhase inp st)).2.2.2.2.2).trans h2
    have h4 := weatherPhase_valid_mono inp
      (reconnectPhase inp (connectPhase inp st)) h3
    have h5 : (readSerial deser inp.now
        (weatherPhase inp (reconnectPhase inp (connectPhase inp st)))
        inp.serialBytes).weatherValid = true :=
      ((readSerial_pres deser inp.now inp.serialBytes
        (weatherPhase inp (reconnectPhase inp (connectPhase inp st)))).2.2.1).trans h4
    exact ((ntpPhase_pres inp
      (serialFresh inp.now (readSerial deser inp.now
        (weatherPhase inp (reconnectPhase inp (connectPhase inp st)))
        inp.serialBytes))
      (readSerial deser inp.now
        (weatherPhase inp (reconnectPhase inp (connectPhase inp st)))
        inp.serialBytes)).2.2.2.2.2).trans h5

/-- One tick preserves the capacity invariant of the cached strings. -/
theorem loopTick_strings (deser : List Char → Option JsonDoc)
    (inp : TickInput) (st : DeviceState) (h : hwStringsOk st.hw) :
    hwStringsOk (loopTick deser inp st).1.hw := by
  unfold loopTick
  split
  · exact h
  · have h2 : hwStringsOk (connectPhase inp st).hw := by
      rw [(connectPhase_pres inp st).1]; exact h
    have h3 : hwStringsOk (reconnectPhase inp (connectPhase inp st)).hw := by
      rw [(reconnectPhase_pres inp (connectPhase inp st)).1]; exact h2
    have h4 : hwStringsOk
        (weatherPhase inp (reconnectPhase inp (connectPhase inp st))).hw := by
      rw [(weatherPhase_pres inp (reconnectPhase inp (connectPhase inp st))).1]
      exact h3
    have h5 := readSerial_strings deser inp.now inp.serialBytes
      (weatherPhase inp (reconnectPhase inp (connectPhase inp st))) h4
    exact ntpPhase_strings inp _ _ h5

/-- When no line ever deserializes, a tick leaves `hasSerialData` and
`inGamingMode` at `false`, and the screen cannot be the gaming one. -/
theorem loopTick_nodata (deser : List Char → Option JsonDoc)
    (H : ∀ l, deser l = none) (inp : TickInput) (st : DeviceState)
    (h1 : st.hasSerialData = false) (h2 : st.inGamingMode = false) :
    (loopTick deser inp st).1.hasSerialData = false ∧
    (loopTick deser inp st).1.inGamingMode = false ∧
    (loopTick deser inp st).2 ≠ Screen.gaming := by
  simp only [loopTick]
  split
  · exact ⟨h1, h2, by simp⟩
  · have hs : (readSerial deser inp.now
        (weatherPhase inp (reconnectPhase inp (connectPhase inp st)))
        inp.serialBytes).hasSerialData = false :=
      (readSerial_noparse deser H inp.now inp.serialBytes _).trans
        (((weatherPhase_pres inp (reconnectPhase inp (connectPhase inp st))).2.2.1).trans
          (((reconnectPhase_pres inp (connectPhase inp st)).2.2.1).trans
            (((connectPhase_pres inp st).2.2.1).trans h1)))
    have hgs : (readSerial deser inp.now
        (weatherPhase inp (reconnectPhase inp (connectPhase inp st)))
        inp.serialBytes).inGamingMode = false :=
      ((readSerial_pres deser inp.now inp.serialBytes
        (weatherPhase inp (reconnectPhase inp (connectPhase inp st)))).1).trans
        (((weatherPhase_pres inp (reconnectPhase inp (connectPhase inp st))).2.2.2.1).trans
          (((reconnectPhase_pres inp (connectPhase inp st)).2.2.2.1).trans
            (((connectPhase_pres inp st).2.2.2.1).trans h2)))
    have hfresh : serialFresh inp.now (readSerial deser inp.now
        (weatherPhase inp (reconnectPhase inp (connectPhase inp st)))
        inp.serialBytes) = false := by
      simp [serialFresh, hs]
    rw [hfresh]
    have hni : (ntpPhase inp false (readSerial deser inp.now
        (weatherPhase inp (reconnectPhase inp (connectPhase inp st)))
        inp.serialBytes)).inGamingMode = false :=
      ((ntpPhase_pres inp false (readSerial deser inp.now
        (weatherPhase inp (reconnectPhase inp (connectPhase inp st)))
        inp.serialBytes)).2.2.2.1).trans hgs
    have hnd : (ntpPhase inp false (readSerial deser inp.now
        (weatherPhase inp (reconnectPhase inp (connectPhase inp st)))
        inp.serialBytes)).hasSerialData = false :=
      ((ntpPhase_pres inp false (readSerial deser inp.now
        (weatherPhase inp (reconnectPhase inp (connectPhase inp st)))
        inp.serialBytes)).2.2.1).trans hs
    rw [hni, gamingArbiter_inactive]
    exact ⟨hnd, rfl, by simp⟩

/-! ### Claims about the telemetry parser -/

/-- Claim C3: every numeric field of a successfully parsed line is stored
clamped to its declared range (`[0,100]` for cpu/gpu/ram, `[0,120]` for
the temperatures, `[0,9999]` for fps and the clocks) — the stored value is
the clamp of the read value, an absent field reads as 0, and the record is
accepted (`hasSerialData` set, timestamp refreshed), never rejected. -/
theorem telemetry_fields_clamped (deser : List Char → Option JsonDoc)
    (line : List Char) (doc : JsonDoc) (now : Nat) (st : DeviceState)
    (h : deser line = some doc) :
    (parseJson deser now st line).hw.cpu = max 0 (min 100 (doc.cpu.getD 0)) ∧
    (parseJson deser now st line).hw.gpu = max 0 (min 100 (doc.gpu.getD 0)) ∧
    (parseJson deser now st line).hw.ram = max 0 (min 100 (doc.ram.getD 0)) ∧
    (parseJson deser now st line).hw.cpu_temp
      = max 0 (min 120 (doc.cpu_temp.getD 0)) ∧
    (parseJson deser now st line).hw.gpu_temp
      = max 0 (min 120 (doc.gpu_temp.getD 0)) ∧
    (parseJson deser now st line).hw.fps
      = max 0 (min 9999 (doc.fps.getD 0)) ∧
    (parseJson deser now st line).hw.cpu_clk
      = max 0 (min 9999 (doc.cpu_clk.getD 0)) ∧
    (parseJson deser now st line).hw.gpu_clk
      = max 0 (min 9999 (doc.gpu_clk.getD 0)) ∧
    (parseJson deser now st line).hasSerialData = true ∧
    (parseJson deser now st line).lastDataTime = now := by
  refine ⟨?_, ?_, ?_, ?_, ?_, ?_, ?_, ?_, ?_, ?_⟩ <;>
    simp [parseJson, h, applyDoc, constrain_0_100, constrain_0_120,
      constrain_0_9999]

theorem telemetry_fields_clamped_witness :
    (parseJson deserBig 7 initGlobals []).hw.cpu
      = max 0 (min 100 ((docBig.cpu).getD 0)) ∧
    (parseJson deserBig 7 initGlobals []).hw.gpu
      = max 0 (min 100 ((docBig.gpu).getD 0)) ∧
    (parseJson deserBig 7 initGlobals []).hw.ram
      = max 0 (min 100 ((docBig.ram).getD 0)) ∧
    (parseJson deserBig 7 initGlobals []).hw.cpu_temp
      = max 0 (min 120 ((docBig.cpu_temp).getD 0)) ∧
    (parseJson deserBig 7 initGlobals []).hw.gpu_temp
      = max 0 (min 120 ((docBig.gpu_temp).getD 0)) ∧
    (parseJson deserBig 7 initGlobals []).hw.fps
      = max 0 (min 9999 ((docBig.fps).getD 0)) ∧
    (parseJson deserBig 7 initGlobals []).hw.cpu_clk
      = max 0 (min 9999 ((docBig.cpu_clk).getD 0)) ∧
    (parseJson deserBig 7 initGlobals []).hw.gpu_clk
      = max 0 (min 9999 ((docBig.gpu_clk).getD 0)) ∧
    (parseJson deserBig 7 initGlobals []).hasSerialData = true ∧
    (parseJson deserBig 7 initGlobals []).lastDataTime = 7 :=
  telemetry_fields_clamped deserBig [] docBig 7 initGlobals rfl

/-- Claim C4: when deserialization of a line fails, `parseJson` leaves the
whole state unchanged — in particular the cached record, the last-seen
timestamp and the has-data flag; there is no partial update. -/
theorem parse_failure_no_partial_update (deser : List Char → Option JsonDoc)
    (now : Nat) (st : DeviceState) (line : List Char)
    (h : deser line = none) :
    parseJson deser now st line = st ∧
    (parseJson deser now st line).hw = st.hw ∧
    (parseJson deser now st line).lastDataTime = st.lastDataTime ∧
    (parseJson deser now st line).hasSerialData = st.hasSerialData := by
  have := parseJson_none deser now st line h
  exact ⟨this, by rw [this], by rw [this], by rw [this]⟩

theorem parse_failure_no_partial_update_witness :
    parseJson deserNone 3 initGlobals ['x'] = initGlobals ∧
    (parseJson deserNone 3 initGlobals ['x']).hw = initGlobals.hw ∧
    (parseJson deserNone 3 initGlobals ['x']).lastDataTime
      = initGlobals.lastDataTime ∧
    (parseJson deserNone 3 initGlobals ['x']).hasSerialData
      = initGlobals.hasSerialData :=
  parse_failure_no_partial_update deserNone 3 initGlobals ['x'] rfl

/-- Claim C7: for a successfully parsed line, an absent or empty `time`
(resp. `date`) leaves the cached string untouched, while a present
non-empty one is copied truncated to 5 (resp. 11) characters. -/
theorem time_date_copy (deser : List Char → Option JsonDoc)
    (line : List Char) (doc : JsonDoc) (now : Nat) (st : DeviceState)
    (h : deser line = some doc) :
    ((doc.time = none → (parseJson deser now st line).hw.hora = st.hw.hora) ∧
     (doc.time = some [] →
        (parseJson deser now st line).hw.hora = st.hw.hora) ∧
     (∀ t, doc.time = some t → t ≠ [] →
        (parseJson deser now st line).hw.hora = t.take 5)) ∧
    ((doc.date = none → (parseJson deser now st line).hw.data = st.hw.data) ∧
     (doc.date = some [] →
        (parseJson deser now st line).hw.data = st.hw.data) ∧
     (∀ d, doc.date = some d → d ≠ [] →
        (parseJson deser now st line).hw.data = d.take 11)) := by
  refine ⟨⟨?_, ?_, ?_⟩, ⟨?_, ?_, ?_⟩⟩
  · intro ht; simp [parseJson, h, applyDoc, ht]
  · intro ht; simp [parseJson, h, applyDoc, ht]
  · intro t ht hne
    simp [parseJson, h, applyDoc, ht, List.length_pos.mpr hne]
  · intro hd; simp [parseJson, h, applyDoc, hd]
  · intro hd; simp [parseJson, h, applyDoc, hd]
  · intro d hd hne
    simp [parseJson, h, applyDoc, hd, List.length_pos.mpr hne]

theorem time_date_copy_witness :
    (parseJson deserBig 7 initGlobals []).hw.hora
      = (['1', '2', ':', '3', '4', ':', '5', '6'] : List Char).take 5 ∧
    (parseJson deserBig 7 initGlobals []).hw.data = initGlobals.hw.data :=
  ⟨(time_date_copy deserBig [] docBig 7 initGlobals rfl).1.2.2
      ['1', '2', ':', '3', '4', ':', '5', '6'] rfl (by decide),
   (time_date_copy deserBig [] docBig 7 initGlobals rfl).2.2.1 rfl⟩

/-! ### Claim about the line decoder -/

/-- Claim C6: the decoder emits the accumulated buffer on a terminator
only when non-empty (and clears it); a terminator on an empty buffer
emits nothing; a non-terminator byte that pushes the accumulated length
past 512 discards the buffer entirely with no emission; and from the
cleared buffer the next terminator-delimited line is emitted intact. -/
theorem line_decoder_correct :
    (∀ buf c, (c = '\n' ∨ c = '\r') → buf ≠ [] →
       feedByte buf c = ([], some buf)) ∧
    (∀ c, (c = '\n' ∨ c = '\r') → feedByte [] c = ([], none)) ∧
    (∀ buf c, ¬(c = '\n' ∨ c = '\r') → 512 ≤ buf.length →
       feedByte buf c = ([], none)) ∧
    (∀ line, line ≠ [] → line.length ≤ 512 →
       (∀ c ∈ line, ¬(c = '\n' ∨ c = '\r')) →
       feedBytes [] (line ++ ['\n']) = ([], [line])) := by
  refine ⟨?_, ?_, ?_, ?_⟩
  · intro buf c hc hne; simp [feedByte, hc, hne]
  · intro c hc; simp [feedByte, hc]
  · intro buf c hc hlen
    have h1 : 512 < (buf ++ [c]).length := by
      simp only [List.length_append, List.length_cons, List.length_nil]
      omega
    have h2 : 511 < buf.length := by omega
    simp [feedByte, hc, h1, h2]
  · intro line hne hlen hfree
    have := feedBytes_accum line [] (by simpa using hne) (by simpa using hlen)
      hfree
    simpa using this

theorem line_decoder_correct_witness :
    feedByte ['a'] '\n' = ([], some ['a']) ∧
    feedByte [] '\r' = ([], none) ∧
    feedByte (List.replicate 512 'a') 'b' = ([], none) ∧
    feedBytes [] (['x', 'y'] ++ ['\n']) = ([], [['x', 'y']]) :=
  ⟨line_decoder_correct.1 ['a'] '\n' (Or.inl rfl) (by decide),
   line_decoder_correct.2.1 '\r' (Or.inr rfl),
   line_decoder_correct.2.2.1 (List.replicate 512 'a') 'b' (by decide)
     (le_of_eq (List.length_replicate 512 'a').symm),
   line_decoder_correct.2.2.2 ['x', 'y'] (by decide) (by decide)
     (by decide)⟩

/-! ### Further helper lemmas for the loop-level claims -/

theorem gamingArbiter_keep (now : Nat) (a : Bool) (lastFps : Nat)
    (h : ¬ (GAMING_COOLDOWN_MS < now - lastFps)) :
    gamingArbiter now 0 a true lastFps = (true, lastFps) := by
  simp [gamingArbiter, h]

theorem gamingArbiter_exit (now : Nat) (a : Bool) (lastFps : Nat)
    (h : GAMING_COOLDOWN_MS < now - lastFps) :
    gamingArbiter now 0 a true lastFps = (false, lastFps) := by
  simp [gamingArbiter, h]

theorem gamingArbiter_stale_exit (now : Nat) (fps : Int) (lastFps : Nat)
    (h : GAMING_COOLDOWN_MS < now - lastFps) :
    gamingArbiter now fps false true lastFps = (false, lastFps) := by
  simp [gamingArbiter, h]

theorem gamingArbiter_stale_keep (now : Nat) (fps : Int) (lastFps : Nat)
    (h : ¬ (GAMING_COOLDOWN_MS < now - lastFps)) :
    gamingArbiter now fps false true lastFps = (true, lastFps) := by
  simp [gamingArbiter, h]

theorem runTicks_nodata (deser : List Char → Option JsonDoc)
    (H : ∀ l, deser l = none) (inps : List TickInput) :
    ∀ st : DeviceState, st.hasSerialData = false → st.inGamingMode = false →
    (runTicks deser st inps).hasSerialData = false ∧
    (runTicks deser st inps).inGamingMode = false := by
  induction inps with
  | nil => intro st hd hg; exact ⟨hd, hg⟩
  | cons i rest ih =>
      intro st hd hg
      have hstep := loopTick_nodata deser H i st hd hg
      exact ih (loopTick deser i st).1 hstep.1 hstep.2.1

theorem runTicks_strings (deser : List Char → Option JsonDoc)
    (inps : List TickInput) : ∀ st : DeviceState, hwStringsOk st.hw →
    hwStringsOk (runTicks deser st inps).hw := by
  induction inps with
  | nil => intro st h; exact h
  | cons i rest ih =>
      intro st h
      exact ih (loopTick deser i st).1 (loopTick_strings deser i st h)

theorem runTicks_valid_mono (deser : List Char → Option JsonDoc)
    (inps : List TickInput) : ∀ st : DeviceState, st.weatherValid = true →
    (runTicks deser st inps).weatherValid = true := by
  induction inps with
  | nil => intro st h; exact h
  | cons i rest ih =>
      intro st h
      exact ih (loopTick deser i st).1 (loopTick_valid_mono deser i st h)

theorem setupState_core (b : BootInput) :
    (setupState b).hasSerialData = false ∧
    (setupState b).inGamingMode = false ∧
    (setupState b).hw = HWData.init := by
  simp only [setupState]
  split
  · refine ⟨?_, ?_, ?_⟩
    · exact ((fetchWeather_pres b.bootNow b.weatherResp
        (fetchLocation b.locResp (syncNTP b.ntpSyncOk
          { initGlobals with wifiConnected := b.wifiOk }))).2.2.1).trans
        (((fetchLocation_pres b.locResp (syncNTP b.ntpSyncOk
          { initGlobals with wifiConnected := b.wifiOk })).2.2.1).trans
          ((syncNTP_pres b.ntpSyncOk
            { initGlobals with wifiConnected := b.wifiOk }).2.2.1))
    · exact ((fetchWeather_pres b.bootNow b.weatherResp
        (fetchLocation b.locResp (syncNTP b.ntpSyncOk
          { initGlobals with wifiConnected := b.wifiOk }))).2.2.2.1).trans
        (((fetchLocation_pres b.locResp (syncNTP b.ntpSyncOk
          { initGlobals with wifiConnected := b.wifiOk })).2.2.2.1).trans
          ((syncNTP_pres b.ntpSyncOk
            { initGlobals with wifiConnected := b.wifiOk }).2.2.2.1))
    · exact ((fetchWeather_pres b.bootNow b.weatherResp
        (fetchLocation b.locResp (syncNTP b.ntpSyncOk
          { initGlobals with wifiConnected := b.wifiOk }))).1).trans
        (((fetchLocation_pres b.locResp (syncNTP b.ntpSyncOk
          { initGlobals with wifiConnected := b.wifiOk })).1).trans
          ((syncNTP_pres b.ntpSyncOk
            { initGlobals with wifiConnected := b.wifiOk }).1))
  · exact ⟨rfl, rfl, rfl⟩

/-! ### Claims about the mode arbiter and the loop -/

/-- Claim C1 counterexample: in Gaming mode with the last `fps > 0` tick
at time 0, the tick at exactly 3000 ms that observes `fps = 0` keeps the
gaming screen — the claim requires the transition to Idle once 3000 ms
have elapsed. -/
theorem gaming_cooldown_exact_boundary :
    (loopTick deserNone (inpQuiet 3000) stGaming).2 = Screen.gaming ∧
    (loopTick deserNone (inpQuiet 3000) stGaming).1.inGamingMode = true := by
  constructor <;> rfl

/-- Claim C1 (amended): once Gaming has been entered, a tick observing
`fps = 0` less than 3000 ms after the last `fps > 0` tick keeps the mode
Gaming; the transition to Idle happens only once strictly more than
3000 ms have elapsed (at exactly 3000 ms the mode is still Gaming). -/
theorem gaming_cooldown_hysteresis (deser : List Char → Option JsonDoc)
    (inp : TickInput) (st : DeviceState) (hwifi : st.wifiConnected = true)
    (hbytes : inp.serialBytes = []) (hfps : st.hw.fps = 0)
    (hmode : st.inGamingMode = true) :
    (inp.now - st.lastFpsTime < GAMING_COOLDOWN_MS →
       (loopTick deser inp st).2 = Screen.gaming ∧
       (loopTick deser inp st).1.inGamingMode = true) ∧
    (GAMING_COOLDOWN_MS < inp.now - st.lastFpsTime →
       (loopTick deser inp st).2 = Screen.idle ∧
       (loopTick deser inp st).1.inGamingMode = false) := by
  have hsnd := loopTick_snd deser inp st hwifi hbytes
  have hfst := loopTick_fst_gaming deser inp st hwifi hbytes
  rw [hfps, hmode] at hsnd hfst
  constructor
  · intro hlt
    have harb := gamingArbiter_keep inp.now (serialFresh inp.now st)
      st.lastFpsTime (by omega)
    rw [harb] at hsnd hfst
    simp at hsnd hfst
    exact ⟨hsnd, hfst⟩
  · intro hgt
    have harb := gamingArbiter_exit inp.now (serialFresh inp.now st)
      st.lastFpsTime hgt
    rw [harb] at hsnd hfst
    simp at hsnd hfst
    exact ⟨hsnd, hfst⟩

theorem gaming_cooldown_hysteresis_witness :
    ((loopTick deserNone (inpQuiet 2000) stGaming).2 = Screen.gaming ∧
     (loopTick deserNone (inpQuiet 2000) stGaming).1.inGamingMode = true) ∧
    ((loopTick deserNone (inpQuiet 6001) stGaming).2 = Screen.idle ∧
     (loopTick deserNone (inpQuiet 6001) stGaming).1.inGamingMode = false) :=
  ⟨(gaming_cooldown_hysteresis deserNone (inpQuiet 2000) stGaming
      rfl rfl rfl rfl).1 (by decide),
   (gaming_cooldown_hysteresis deserNone (inpQuiet 6001) stGaming
      rfl rfl rfl rfl).2 (by decide)⟩

/-- Claim C2 counterexample: telemetry was fresh (last line at 1000 ms),
then no bytes arrive until 6001 ms (5001 ms of silence) with no network
time available — the tick shows the idle screen; there is no offline
screen in this firmware (`loop()` line 300 always draws gaming or idle). -/
theorem no_offline_mode_counterexample :
    (loopTick deserNone (inpQuiet 6001) stStale).2 = Screen.idle := by
  rfl

/-- Claim C2 (amended): with telemetry stale (at least 5000 ms since the
last parsed line) and no network time, the tick shows the idle screen —
the firmware has no Offline mode — whenever Gaming is not latched or its
3000 ms cooldown since the last `fps > 0` tick has strictly expired;
while Gaming is still latched within that cooldown, the gaming screen
persists despite the stale telemetry. -/
theorem stale_telemetry_goes_idle (deser : List Char → Option JsonDoc)
    (inp : TickInput) (st : DeviceState) (hwifi : st.wifiConnected = true)
    (hbytes : inp.serialBytes = [])
    (hstale : ¬ (inp.now - st.lastDataTime < SERIAL_TIMEOUT_MS))
    (hntp : st.ntpSynced = false) :
    ((st.inGamingMode = false ∨ GAMING_COOLDOWN_MS < inp.now - st.lastFpsTime)
       → (loopTick deser inp st).2 = Screen.idle) ∧
    ((st.inGamingMode = true ∧
        ¬ (GAMING_COOLDOWN_MS < inp.now - st.lastFpsTime))
       → (loopTick deser inp st).2 = Screen.gaming) := by
  have hsnd := loopTick_snd deser inp st hwifi hbytes
  have hsa : serialFresh inp.now st = false := by
    simp [serialFresh, hstale]
  rw [hsa] at hsnd
  constructor
  · rintro (hg | hcool)
    · rw [hg, gamingArbiter_inactive] at hsnd
      simpa using hsnd
    · cases hgm : st.inGamingMode with
      | false =>
          rw [hgm, gamingArbiter_inactive] at hsnd
          simpa using hsnd
      | true =>
          rw [hgm, gamingArbiter_stale_exit inp.now st.hw.fps st.lastFpsTime
            hcool] at hsnd
          simpa using hsnd
  · rintro ⟨hg, hcool⟩
    rw [hg, gamingArbiter_stale_keep inp.now st.hw.fps st.lastFpsTime
      hcool] at hsnd
    simpa using hsnd

theorem stale_telemetry_goes_idle_witness :
    (loopTick deserNone (inpQuiet 7000) stStale).2 = Screen.idle ∧
    (loopTick deserNone (inpQuiet 15001) stLatched).2 = Screen.gaming ∧
    (loopTick deserNone (inpQuiet 18001) stLatched).2 = Screen.idle :=
  ⟨(stale_telemetry_goes_idle deserNone (inpQuiet 7000) stStale rfl rfl
      (by decide) rfl).1 (Or.inl rfl),
   (stale_telemetry_goes_idle deserNone (inpQuiet 15001) stLatched rfl rfl
      (by decide) rfl).2 ⟨rfl, by decide⟩,
   (stale_telemetry_goes_idle deserNone (inpQuiet 18001) stLatched rfl rfl
      (by decide) rfl).1 (Or.inr (by decide))⟩

/-- Claim C5 counterexample: with the provisioning portal active
(`wifiConnected = false`, link still down) and a complete, parseable
serial line pending, the tick returns the state entirely unchanged and
shows the config screen — the decoder and parser did not run, although
running `readSerial` on those bytes would have ingested the line
(`hasSerialData` would become true).  The pending data is therefore not
processed, contrary to the claim. -/
theorem portal_drops_serial_counterexample :
    loopTick deserBig inpPortal initGlobals = (initGlobals, Screen.config) ∧
    (readSerial deserBig 0 initGlobals ['a', '\n']).hasSerialData = true := by
  constructor <;> rfl

/-- Claim C5 (amended): while the provisioning portal is active and the
link is still down, `loop()` returns before `readSerial` — the line
decoder and telemetry parser do not run on such ticks and the tick leaves
the device state unchanged, showing the config screen. -/
theorem portal_skips_serial (deser : List Char → Option JsonDoc)
    (inp : TickInput) (st : DeviceState) (h1 : st.wifiConnected = false)
    (h2 : inp.wifiUp = false) :
    loopTick deser inp st = (st, Screen.config) := by
  simp [loopTick, h1, h2]

theorem portal_skips_serial_witness :
    loopTick deserNone inpPortal initGlobals = (initGlobals, Screen.config) :=
  portal_skips_serial deserNone inpPortal initGlobals rfl rfl

/-- Claim C8: starting from `setup()` — which stamps `lastDataTime` with
the boot time but leaves `hasSerialData` false — as long as no line ever
deserializes, after any number of ticks the has-data flag is still false,
telemetry is never considered fresh at any query time, the gaming latch is
off, and no tick can show the gaming screen. -/
theorem gaming_unreachable_before_first_parse
    (deser : List Char → Option JsonDoc) (H : ∀ l, deser l = none)
    (b : BootInput) (inps : List TickInput) :
    (runTicks deser (setupState b) inps).hasSerialData = false ∧
    (∀ now, serialFresh now (runTicks deser (setupState b) inps) = false) ∧
    (runTicks deser (setupState b) inps).inGamingMode = false ∧
    ∀ inp, (loopTick deser inp (runTicks deser (setupState b) inps)).2
      ≠ Screen.gaming := by
  obtain ⟨hS, hG, -⟩ := setupState_core b
  obtain ⟨h1, h2⟩ := runTicks_nodata deser H inps (setupState b) hS hG
  exact ⟨h1, fun now => by simp [serialFresh, h1], h2,
    fun inp => (loopTick_nodata deser H inp _ h1 h2).2.2⟩

theorem gaming_unreachable_before_first_parse_witness :
    (runTicks deserNone (setupState bootQuiet) [inpQuiet 1]).hasSerialData
      = false ∧
    (∀ now, serialFresh now
      (runTicks deserNone (setupState bootQuiet) [inpQuiet 1]) = false) ∧
    (runTicks deserNone (setupState bootQuiet) [inpQuiet 1]).inGamingMode
      = false ∧
    ∀ inp, (loopTick deserNone inp
      (runTicks deserNone (setupState bootQuiet) [inpQuiet 1])).2
      ≠ Screen.gaming :=
  gaming_unreachable_before_first_parse deserNone (fun _ => rfl) bootQuiet
    [inpQuiet 1]

/-- Claim C9: a failed weather refresh leaves the entire state (hence the
cached temperature, condition code, validity flag and timestamp)
unchanged; once valid, the snapshot stays valid across any refresh result
and any number of loop ticks; and the idle screen renders the snapshot
exactly when it is valid. -/
theorem weather_cache_sticky :
    (∀ now st, fetchWeather now none st = st) ∧
    (∀ now r st, st.weatherValid = true →
       (fetchWeather now r st).weatherValid = true) ∧
    (∀ deser inps st, st.weatherValid = true →
       (runTicks deser st inps).weatherValid = true) ∧
    (∀ st, idleShowsWeather st = st.weatherValid) := by
  refine ⟨?_, ?_, ?_, fun st => rfl⟩
  · intro now st
    unfold fetchWeather
    split <;> rfl
  · exact fun now r st h => fetchWeather_valid_mono now r st h
  · exact fun deser inps st h => runTicks_valid_mono deser inps st h

theorem weather_cache_sticky_witness :
    fetchWeather 9 none stWeather = stWeather ∧
    (fetchWeather 9 none stWeather).weatherValid = true ∧
    (runTicks deserNone stWeather [inpQuiet 9]).weatherValid = true ∧
    idleShowsWeather stWeather = stWeather.weatherValid :=
  ⟨weather_cache_sticky.1 9 stWeather,
   weather_cache_sticky.2.1 9 none stWeather rfl,
   weather_cache_sticky.2.2.1 deserNone [inpQuiet 9] stWeather rfl,
   weather_cache_sticky.2.2.2 stWeather⟩

/-- Claim C10: the cached time string holds at most 5 characters and the
date string at most 11 (so both always fit their 6- and 12-byte buffers
with a terminator): this holds for the initial values, is preserved by a
parsed record and by an NTP update, and holds after `setup()` followed by
any number of loop ticks. -/
theorem cached_strings_bounded :
    hwStringsOk HWData.init ∧
    (∀ doc hw, hwStringsOk hw → hwStringsOk (applyDoc doc hw)) ∧
    (∀ t hw, hwStringsOk hw → hwStringsOk (updateNtpTime t hw)) ∧
    (∀ deser b inps, hwStringsOk (runTicks deser (setupState b) inps).hw) := by
  have hinit : hwStringsOk HWData.init := by constructor <;> decide
  refine ⟨hinit, fun doc hw h => applyDoc_strings doc hw h,
    fun t hw h => updateNtpTime_strings t hw h, ?_⟩
  intro deser b inps
  apply runTicks_strings
  rw [(setupState_core b).2.2]
  exact hinit

theorem cached_strings_bounded_witness :
    hwStringsOk HWData.init ∧
    hwStringsOk (applyDoc docBig HWData.init) ∧
    hwStringsOk (updateNtpTime none HWData.init) ∧
    hwStringsOk (runTicks deserNone (setupState bootQuiet) [inpQuiet 2]).hw :=
  ⟨cached_strings_bounded.1,
   cached_strings_bounded.2.1 docBig HWData.init cached_strings_bounded.1,
   cached_strings_bounded.2.2.1 none HWData.init cached_strings_bounded.1,
   cached_strings_bounded.2.2.2 deserNone bootQuiet [inpQuiet 2]⟩

end HWMonitor
